import Mathlib

/-!
Verification development for the Knowledge Graph Construction Engine of the
Raseed backend (`Backend/app/agents/graph_builder.py` and
`Backend/app/models/knowledge_graph.py`).

The Python source is shallowly embedded: Python floats used for prices,
weights and confidences are modelled by `ℚ` (all arithmetic the engine
performs on them — max, min, +0.1, comparisons — is exact on the values that
occur), Python dicts by insertion-ordered association lists with Python's
`dict.update` semantics, calendar dates by their day number (`ℕ`), and the
external AI completion service plus Python's `json.loads` boundary by an
explicit outcome value, exactly as the spec treats them (external
collaborators consumed through a request/response contract).  Timestamp
metadata fields (`created_at`, `updated_at`) are never read by any of the
algorithms below and are not modelled.
-/

namespace Raseed

/-! ### Basic character/string helpers (Python semantics, ASCII inputs) -/

/-- Python `str.strip()` / regex `\s` whitespace set (ASCII part). -/
def isPySpace (c : Char) : Bool :=
  c = ' ' || c = '\t' || c = '\n' || c = Char.ofNat 13 || c = Char.ofNat 12 || c = Char.ofNat 11

/-- ASCII lowercase of one character, as Python `str.lower()` on ASCII text. -/
def lowerCh (c : Char) : Char := c.toLower

/-- Python `str.lower()` on a character list. -/
def lowerChars (s : List Char) : List Char := s.map lowerCh

/-- Python `str.strip()`: remove leading and trailing whitespace. -/
def stripChars (s : List Char) : List Char :=
  ((s.dropWhile isPySpace).reverse.dropWhile isPySpace).reverse

/-- The `pre` is a prefix of `s` (used for substring containment). -/
def charsPrefix : List Char → List Char → Bool
  | [], _ => true
  | _ :: _, [] => false
  | p :: ps, c :: cs => p = c && charsPrefix ps cs

/-- Python `needle in hay` substring containment on character lists. -/
def containsSub (needle : List Char) : List Char → Bool
  | [] => charsPrefix needle []
  | c :: cs => charsPrefix needle (c :: cs) || containsSub needle cs

/-- Python `needle in hay` on strings. -/
def strContains (hay needle : String) : Bool :=
  containsSub needle.toList hay.toList

/-- Python `str.startswith` on strings. -/
def strStarts (s p : String) : Bool := charsPrefix p.toList s.toList

/-- Python `str.endswith` on strings. -/
def strEnds (s p : String) : Bool := charsPrefix p.toList.reverse s.toList.reverse

/-- Python `str.strip()` on strings. -/
def strStrip (s : String) : String := ⟨stripChars s.toList⟩

/-- Python `str.lower()` on strings. -/
def strLower (s : String) : String := ⟨lowerChars s.toList⟩

/-- Absolute difference used for `abs(price - total)` comparisons. -/
def qAbs (q : ℚ) : ℚ := |q|

/-! ### Python dict modelled as an insertion-ordered association list -/

/-- Values that occur in the `attributes` dicts of entities and relations. -/
inductive AttrValue where
  | str (s : String)
  | num (q : ℚ)
  | boolV (b : Bool)
  | strList (l : List String)
  | dateV (d : ℕ)
  | noneV
  deriving DecidableEq, Repr

/-- A Python dict with string keys: insertion-ordered association list with
distinct keys maintained by `dictSet`. -/
abbrev Attrs := List (String × AttrValue)

/-- The `d[k] = v`: overwrite in place when the key exists (keeping its position,
as Python dicts do), append otherwise. -/
def dictSet (d : Attrs) (k : String) (v : AttrValue) : Attrs :=
  if d.any (fun p => p.1 = k) then
    d.map (fun p => if p.1 = k then (p.1, v) else p)
  else d ++ [(k, v)]

/-- Python `d.update(e)`: fold `dictSet` over `e` in order. -/
def dictUpdate (d e : Attrs) : Attrs :=
  e.foldl (fun acc p => dictSet acc p.1 p.2) d

/-- The `Option` value rendered as a Python attribute value (`None` ↦ `noneV`). -/
def optStr : Option String → AttrValue
  | some s => .str s
  | none => .noneV

/-- Optional numeric attribute value. -/
def optNum : Option ℚ → AttrValue
  | some q => .num q
  | none => .noneV

/-- Optional date attribute value. -/
def optDate : Option ℕ → AttrValue
  | some d => .dateV d
  | none => .noneV

/-- Python truthiness of an optional string (`None` and `""` are falsy). -/
def optTruthy : Option String → Bool
  | some s => s ≠ ""
  | none => false

/-! ### Data model (`Backend/app/models/knowledge_graph.py`) -/

/-- The `GraphEntity`: a node of the knowledge graph.  `id` is the uuid assigned
at creation, `confidence` defaults to 1.0 as in the source. -/
structure GraphEntity where
  id : String
  name : String
  type : String
  category : Option String := none
  attributes : Attrs := []
  confidence : ℚ := 1
  deriving DecidableEq, Repr

/-- The `GraphRelation`: a directed typed edge between two entity ids. -/
structure GraphRelation where
  id : String
  source_entity_id : String
  target_entity_id : String
  relation_type : String
  weight : ℚ := 1
  attributes : Attrs := []
  receipt_id : Option String := none
  deriving DecidableEq, Repr

/-- The `KnowledgeGraph`: aggregate of entities and relations with counters. -/
structure KnowledgeGraph where
  id : String := ""
  name : String := ""
  description : Option String := none
  entities : List GraphEntity := []
  relations : List GraphRelation := []
  receipt_ids : List String := []
  user_id : Option String := none
  total_entities : ℕ := 0
  total_relations : ℕ := 0
  deriving DecidableEq, Repr

/-- The `KnowledgeGraph.add_entity`: append and recompute the entity counter. -/
def KnowledgeGraph.add_entity (g : KnowledgeGraph) (e : GraphEntity) : KnowledgeGraph :=
  let es := g.entities ++ [e]
  { g with entities := es, total_entities := es.length }

/-- The `KnowledgeGraph.add_relation`: append and recompute the relation counter. -/
def KnowledgeGraph.add_relation (g : KnowledgeGraph) (r : GraphRelation) : KnowledgeGraph :=
  let rs := g.relations ++ [r]
  { g with relations := rs, total_relations := rs.length }

/-- One mutation step on a graph: an `add_entity` or an `add_relation` call. -/
inductive GraphOp where
  | addEntity (e : GraphEntity)
  | addRelation (r : GraphRelation)
  deriving DecidableEq, Repr

/-- Apply a sequence of `add_entity`/`add_relation` operations in order. -/
def applyOps (g : KnowledgeGraph) : List GraphOp → KnowledgeGraph
  | [] => g
  | .addEntity e :: ops => applyOps (g.add_entity e) ops
  | .addRelation r :: ops => applyOps (g.add_relation r) ops

/-- The counter invariant of the graph model. -/
def countersOk (g : KnowledgeGraph) : Prop :=
  g.total_entities = g.entities.length ∧ g.total_relations = g.relations.length

instance (g : KnowledgeGraph) : Decidable (countersOk g) := by
  unfold countersOk; infer_instance

/-! ### Text Item Extractor (`_extract_items_from_text`, `_fallback_regex_extraction`,
`_clean_gemini_response`) -/

/-- An extracted/receipt line item.  Models both `ReceiptItem` objects and the
item dicts produced by extraction: the two branches of every
`hasattr(item, ...) / item.get(...)` pair in the source read the same data,
so one record type covers both (`ReceiptItem` itself lives outside the
provided sources; its fields follow the spec's upstream-input description). -/
structure PItem where
  name : String
  price : ℚ := 0
  quantity : ℚ := 1
  total_price : Option ℚ := none
  sku : Option String := none
  description : Option String := none
  deriving DecidableEq, Repr

/-- Value of a digit string (regex group `[0-9]+`). -/
def digitsVal (ds : List Char) : ℕ :=
  ds.foldl (fun n c => 10 * n + (c.toNat - 48)) 0

/-- Match the regex fragment `([0-9]+\.?[0-9]*)\s*$` anchored at the head of
`s` and return the float value of the group.  Greedy matching is exact here:
nothing after the group can absorb digits or the dot. -/
def parseNumToEnd (s : List Char) : Option ℚ :=
  let ds := s.takeWhile Char.isDigit
  if ds.isEmpty then none else
  match s.drop ds.length with
  | '.' :: r2 =>
      let fs := r2.takeWhile Char.isDigit
      if (r2.drop fs.length).all isPySpace then
        some ((digitsVal ds : ℚ) + (digitsVal fs : ℚ) / ((10 : ℚ) ^ fs.length))
      else none
  | r2 => if r2.all isPySpace then some (digitsVal ds) else none

/-- Case-insensitive literal match at the head of `s` (regex `re.IGNORECASE`);
returns the rest on success. -/
def matchCi : List Char → List Char → Option (List Char)
  | [], s => some s
  | _ :: _, [] => none
  | p :: ps, c :: cs => if lowerCh p = lowerCh c then matchCi ps cs else none

/-- Regex `\.?`: consume one optional dot.  Greedy consumption is exact: the
following `\s*(digit...)` can never succeed on a leading dot. -/
def dropDotOpt : List Char → List Char
  | '.' :: r => r
  | r => r

/-- The four currency forms of the extractor's same-line patterns, in source
order: `$`, `₹`, `INR`, `Rs`. -/
inductive CurMarker where
  | dollar | rupee | inrM | rsM
  deriving DecidableEq, Repr

/-- Match the tail `MARKER(price)\s*$` of a same-line pattern, starting at the
first non-space character after the name:  `\$(num)`, `₹\s*(num)`,
`INR\s+(num)`, `Rs\.?\s*(num)` (case-insensitive). -/
def tailAfterSpaces (m : CurMarker) (r : List Char) : Option ℚ :=
  match m with
  | .dollar => match r with
      | '$' :: r2 => parseNumToEnd r2
      | _ => none
  | .rupee => match r with
      | '₹' :: r2 => parseNumToEnd (r2.dropWhile isPySpace)
      | _ => none
  | .inrM => (matchCi "inr".toList r).bind fun r2 =>
      let ws := r2.takeWhile isPySpace
      if ws.isEmpty then none else parseNumToEnd (r2.drop ws.length)
  | .rsM => (matchCi "rs".toList r).bind fun r2 =>
      parseNumToEnd ((dropDotOpt r2).dropWhile isPySpace)

/-- Non-greedy search for `^(.+?)\s+MARKER(num)\s*$`: the group grows from the
left until the tail matches; `\s+` is consumed greedily, which is exact since
no marker begins with whitespace.  Returns (raw group 1, price). -/
def sameLineGo (m : CurMarker) (name : List Char) : List Char → Option (List Char × ℚ)
  | [] => none
  | c :: rest =>
      (if name ≠ [] ∧ isPySpace c = true then
         match tailAfterSpaces m ((c :: rest).dropWhile isPySpace) with
         | some q => some (name, q)
         | none => none
       else none)
      <|> sameLineGo m (name ++ [c]) rest

/-- The `abs(price - receipt.total_amount) < 0.01`, guarded by Python truthiness of
`receipt.total_amount` (absent receipts and zero totals are falsy). -/
def isTotalAmount (total_amount : Option ℚ) (price : ℚ) : Bool :=
  match total_amount with
  | some t => t ≠ 0 && qAbs (price - t) < 1 / 100
  | none => false

/-- The `same_line_patterns` loop body: first pattern whose match also passes the
name/price validation and the total-amount exclusion yields the item; a
matching pattern whose validation fails falls through to the next pattern,
exactly as in the source. -/
def sameLineItem (total_amount : Option ℚ) (line : List Char) : Option PItem :=
  [CurMarker.dollar, CurMarker.rupee, CurMarker.inrM, CurMarker.rsM].findSome? fun m =>
    match sameLineGo m [] line with
    | none => none
    | some (rawName, price) =>
        let nm := stripChars rawName
        if 3 ≤ nm.length ∧ nm.length ≤ 50 ∧ nm.any Char.isAlpha = true
           ∧ (1 : ℚ) ≤ price ∧ price ≤ 10000
           ∧ isTotalAmount total_amount price = false
        then some { name := ⟨nm⟩, price := price, quantity := 1, total_price := some price }
        else none

/-- The `price_patterns`: first of the five patterns matching the whole line
(`\$num`, `₹\s*num`, `INR\s+num`, `Rs\.?\s*num`, plain `num`, all with
`\s*$`).  The patterns are pairwise exclusive on their first character, so
"first match" is the unique match. -/
def priceOnlyVal (line : List Char) : Option ℚ :=
  (match line with
   | '$' :: r => parseNumToEnd r
   | _ => none)
  <|> (match line with
   | '₹' :: r => parseNumToEnd (r.dropWhile isPySpace)
   | _ => none)
  <|> ((matchCi "inr".toList line).bind fun r =>
        let ws := r.takeWhile isPySpace
        if ws.isEmpty then none else parseNumToEnd (r.drop ws.length))
  <|> ((matchCi "rs".toList line).bind fun r =>
        parseNumToEnd ((dropDotOpt r).dropWhile isPySpace))
  <|> parseNumToEnd line

/-- The `skip_words` boilerplate list of `_fallback_regex_extraction`. -/
def skip_words : List String :=
  ["receipt", "company", "address", "date", "manager", "total", "thank",
   "description", "price", "lorem", "ipsum",
   "tax", "taxes", "subtotal", "amount", "payment", "cash", "card", "change",
   "bill", "invoice", "customer",
   "phone", "email", "website", "store", "shop", "market", "super", "makkal",
   "time", "number", "id",
   "transaction", "reference", "inr", "usd", "currency", "balance", "tender",
   "received"]

/-- The `any(word in line.lower() for word in skip_words)`. -/
def isSkippedLine (lineLower : List Char) : Bool :=
  skip_words.any fun w => containsSub w.toList lineLower

/-- Regex `^[\*\=\-\:\_\~\s]+$` on the (nonempty) stripped line. -/
def isSeparatorLine (l : List Char) : Bool :=
  l.all fun c => c = '*' || c = '=' || c = '-' || c = ':' || c = '_' || c = '~' || isPySpace c

/-- Character class `[A-Za-z\s]` (plus optional extras) of the item-name
patterns. -/
def inNameClass (extra : List Char) (c : Char) : Bool :=
  c.isAlpha || isPySpace c || extra.contains c

/-- The four `item_patterns` with their shared length/alphabetic validation:
`^[A-Z][A-Za-z\s]+$`, `^[A-Z][A-Za-z\s\-]+$`, `^[A-Za-z][A-Za-z\s]+$`,
`^[A-Za-z][A-Za-z\s\&\-]+$` — the loop appends the same candidate for
whichever pattern matches first, so the disjunction is exact. -/
def looksLikeItemName (l : List Char) : Bool :=
  (match l with
   | c :: rest =>
       (c.isUpper && !rest.isEmpty && rest.all (inNameClass []))
       || (c.isUpper && !rest.isEmpty && rest.all (inNameClass ['-']))
       || (c.isAlpha && !rest.isEmpty && rest.all (inNameClass []))
       || (c.isAlpha && !rest.isEmpty && rest.all (inNameClass ['&', '-']))
   | [] => false)
  && 3 ≤ l.length && l.length ≤ 30 && l.any Char.isAlpha

/-- State of the line scan: same-line items plus the separate item-name and
price-line candidates (each tagged with its original line index). -/
structure ScanState where
  items : List PItem := []
  item_lines : List (ℕ × String) := []
  price_lines : List (ℕ × ℚ) := []
  deriving Repr

/-- Body of the scanning loop of `_fallback_regex_extraction` for one
enumerated line. -/
def scanLine (total_amount : Option ℚ) (st : ScanState) (i : ℕ) (raw : String) : ScanState :=
  let line := stripChars raw.toList
  if line.length < 3 then st
  else if isSkippedLine (lowerChars line) then st
  else if isSeparatorLine line then st
  else match sameLineItem total_amount line with
  | some it => { st with items := st.items ++ [it] }
  | none =>
      match priceOnlyVal line with
      | some price =>
          if isTotalAmount total_amount price = false ∧ (1 : ℚ) ≤ price ∧ price ≤ 10000 then
            { st with price_lines := st.price_lines ++ [(i, price)] }
          else if looksLikeItemName line then
            { st with item_lines := st.item_lines ++ [(i, ⟨line⟩)] }
          else st
      | none =>
          if looksLikeItemName line then
            { st with item_lines := st.item_lines ++ [(i, ⟨line⟩)] }
          else st

/-- Distance `abs(item_idx - price_idx)` on line indices. -/
def idxDist (a b : ℕ) : ℕ := max a b - min a b

/-- Find the nearest unused price line for one item candidate: strict `<`
keeps the earliest price line on ties, as in the source loop. -/
def bestPriceFor (used : List ℕ) (item_idx : ℕ) (prices : List (ℕ × ℚ)) :
    Option (ℕ × ℚ) :=
  let best := prices.foldl
    (fun best p =>
      if used.contains p.1 then best
      else match best with
        | none => some (p.1, p.2, idxDist item_idx p.1)
        | some (bi, bp, bd) =>
            if idxDist item_idx p.1 < bd then some (p.1, p.2, idxDist item_idx p.1)
            else some (bi, bp, bd))
    none
  best.map fun b => (b.1, b.2.1)

/-- Pair each remaining item-name candidate with its nearest unused price
line, appending paired items in candidate order. -/
def pairRemaining (prices : List (ℕ × ℚ)) (items : List PItem) (used : List ℕ) :
    List (ℕ × String) → List PItem
  | [] => items
  | (i, nm) :: rest =>
      match bestPriceFor used i prices with
      | none => pairRemaining prices items used rest
      | some (pi, pr) =>
          pairRemaining prices
            (items ++ [{ name := nm, price := pr, quantity := 1, total_price := some pr }])
            (used ++ [pi]) rest

/-- Python `raw_text.split('\n')`: split on every newline, keeping empty
pieces. -/
def splitLinesAux (cur : List Char) : List Char → List String
  | [] => [⟨cur⟩]
  | c :: cs => if c = '\n' then (⟨cur⟩ : String) :: splitLinesAux [] cs
               else splitLinesAux (cur ++ [c]) cs

/-- Python `raw_text.split('\n')` on a string. -/
def splitLines (s : String) : List String := splitLinesAux [] s.toList

/-- The `_fallback_regex_extraction(raw_text, receipt)`: the deterministic
regex/heuristic extractor.  `total_amount` stands for
`receipt.total_amount` (with `None` covering an absent receipt).  The
source's blanket `except` around this pure computation can never fire. -/
def fallback_regex_extraction (raw_text : String) (total_amount : Option ℚ) : List PItem :=
  let lines := splitLines raw_text
  let st := lines.enum.foldl (fun st p => scanLine total_amount st p.1 p.2) {}
  pairRemaining st.price_lines st.items [] st.item_lines

/-- The `_clean_gemini_response`: strip, remove markdown fences, and cut to the
outermost `[` … `]` when both brackets occur. -/
def clean_gemini_response (response : String) : String :=
  if response = "" then ""
  else
    let rc := strStrip response
    let rc := if strStarts rc "```json" then (⟨rc.toList.drop 7⟩ : String)
              else if strStarts rc "```" then (⟨rc.toList.drop 3⟩ : String) else rc
    let rc := if strEnds rc "```" then (⟨rc.toList.take (rc.toList.length - 3)⟩ : String)
              else rc
    let rc := strStrip rc
    let l := rc.toList
    if l.contains '[' ∧ l.contains ']' then
      match l.findIdx? (· = '['), (l.reverse.findIdx? (· = ']')) with
      | some st, some revEnd =>
          let stop := l.length - revEnd       -- rfind(']') + 1
          ⟨(l.drop st).take (stop - st)⟩
      | _, _ => rc
    else rc

/-- Outcome of the `_call_gemini` request for item extraction, as seen at the
external AI boundary: either the retried call ultimately raised
(`failure`) or a response text arrived, paired with the result of Python's
`json.loads` on the cleaned text (`none` models a `JSONDecodeError`). -/
inductive GeminiOutcome where
  | failure
  | success (response : String) (parsed : Option (List PItem))
  deriving Repr

/-- The `_extract_items_from_text(raw_text, receipt)`: the AI path with its two
exception handlers.  A `json.JSONDecodeError` of the response is caught and
returns `[]`; every other failure of the AI call runs
`_fallback_regex_extraction`. -/
def extract_items_from_text (raw_text : String) (total_amount : Option ℚ)
    (outcome : GeminiOutcome) : List PItem :=
  match outcome with
  | .failure => fallback_regex_extraction raw_text total_amount
  | .success response parsed =>
      let cleaned := clean_gemini_response response
      if cleaned = "" then []
      else match parsed with
        | some items => items
        | none => []

/-! ### Item Classifier (`_classify_items_with_gemini`,
`_parse_classification_response`, `_create_fallback_classifications`,
`_fallback_classification`, `_predict_expiry_date`) -/

/-- The `warranty_info` block of a classification record. -/
structure WarrantyInfo where
  has_warranty : Option Bool := none
  warranty_period : Option String := none
  warranty_expiry : Option String := none
  deriving DecidableEq, Repr

/-- The `expiry_info` block; calendar dates are modelled by their day number. -/
structure ExpiryInfo where
  has_expiry : Option Bool := none
  expiry_date : Option ℕ := none
  days_until_expiry : Option ℚ := none
  is_expiring_soon : Option Bool := none
  deriving DecidableEq, Repr

/-- The `nutritional_info` block. -/
structure NutritionalInfo where
  is_food : Option Bool := none
  allergens : Option (List String) := none
  dietary_tags : Option (List String) := none
  deriving DecidableEq, Repr

/-- The `price_analysis` block. -/
structure PriceAnalysis where
  unit_price : Option ℚ := none
  price_per_unit : Option ℚ := none
  is_discounted : Option Bool := none
  discount_percentage : Option ℚ := none
  original_price : Option ℚ := none
  deriving DecidableEq, Repr

/-- A raw per-item classification dict (AI-supplied or fallback-built); every
field is optional because the source reads each key with `.get` and a
default.  This is also the value stored under `enhanced_data`. -/
structure EnhancedData where
  category : Option String := none
  confidence : Option ℚ := none
  brand : Option String := none
  product_type : Option String := none
  warranty_info : Option WarrantyInfo := none
  expiry_info : Option ExpiryInfo := none
  nutritional_info : Option NutritionalInfo := none
  price_analysis : Option PriceAnalysis := none
  deriving DecidableEq, Repr

/-- The backward-compatible classification record handed to the assembler.
The source always stores the four keys below, so they are plain fields. -/
structure Classification where
  category : String
  confidence : ℚ
  brand : Option String := none
  enhanced_data : EnhancedData := {}
  deriving DecidableEq, Repr

/-- Day number of the literal fallback date string `"2025-07-25"`; only its
identity matters to the algorithms. -/
def date_2025_07_25 : ℕ := 739457

/-- The `expiry_rules` of `_predict_expiry_date`, in source (insertion) order. -/
def expiry_rules : List (String × ℕ) :=
  [("milk", 3), ("yogurt", 5), ("cream", 4), ("butter", 7), ("cheese", 10),
   ("bread", 3), ("bun", 2), ("cake", 4), ("pastry", 2), ("croissant", 2),
   ("banana", 5), ("apple", 14), ("orange", 10), ("tomato", 7), ("lettuce", 3),
   ("potato", 30), ("onion", 21), ("carrot", 21), ("cucumber", 7),
   ("chicken", 2), ("beef", 3), ("pork", 3), ("fish", 1), ("shrimp", 1),
   ("pasta", 365), ("rice", 365), ("flour", 180), ("sugar", 730),
   ("oil", 180), ("vinegar", 730), ("sauce", 90), ("jam", 365),
   ("juice", 7), ("soda", 180), ("water", 365), ("tea", 730), ("coffee", 365),
   ("frozen", 90), ("ice", 365),
   ("canned", 730), ("can", 730),
   ("tablet", 730), ("capsule", 730), ("syrup", 365), ("vitamin", 730),
   ("default", 30)]

/-- The `_predict_expiry_date(product_name)`: first keyword (skipping `default`)
contained in the lowercased name wins; otherwise 30 days.  `today` is the
current date as a day number. -/
def predict_expiry_date (today : ℕ) (product_name : String) : ℕ :=
  let pl := lowerChars product_name.toList
  let days := (expiry_rules.findSome? fun p =>
    if p.1 ≠ "default" ∧ containsSub p.1.toList pl = true then some p.2 else none).getD 30
  today + days

/-- The `food_keywords` of the fallback classifier. -/
def food_keywords : List String :=
  ["milk", "bread", "egg", "rice", "sugar", "tea", "coffee", "juice", "water",
   "cola", "soda", "snack", "biscuit", "chocolate", "fruit", "vegetable",
   "oil", "flour", "butter", "cheese", "meat", "chicken", "fish", "pasta"]

/-- The `electronics_keywords` of the fallback classifier. -/
def electronics_keywords : List String :=
  ["laptop", "computer", "phone", "mobile", "tablet", "tv", "camera",
   "headphone", "speaker", "cable", "charger", "mouse", "keyboard"]

/-- The `clothing_keywords` of the fallback classifier. -/
def clothing_keywords : List String :=
  ["shirt", "pant", "dress", "shoe", "bag", "jacket", "cap", "hat",
   "trouser", "jean", "suit", "sock", "underwear"]

/-- The `pharmacy_keywords` of the fallback classifier. -/
def pharmacy_keywords : List String :=
  ["tablet", "capsule", "syrup", "medicine", "drug", "vitamin",
   "paracetamol", "aspirin", "cream", "ointment", "bandage"]

/-- The `any(keyword in item_name for keyword in kws)`. -/
def anyKeywordIn (kws : List String) (nameLower : List Char) : Bool :=
  kws.any fun w => containsSub w.toList nameLower

/-- The `_create_fallback_classifications(items)`: the deterministic keyword
classifier (confidence 0.7) with shelf-life expiry prediction. -/
def create_fallback_classifications (today : ℕ) (items : List PItem) :
    List Classification :=
  items.map fun item =>
    let item_name := lowerChars item.name.toList
    let price := item.price
    let cat_food_exp : String × Bool × Bool :=
      if anyKeywordIn food_keywords item_name then ("grocery", true, true)
      else if anyKeywordIn electronics_keywords item_name then ("electronics", false, false)
      else if anyKeywordIn clothing_keywords item_name then ("clothing", false, false)
      else if anyKeywordIn pharmacy_keywords item_name then ("pharmacy", false, true)
      else ("other", false, false)
    let category := cat_food_exp.1
    let is_food := cat_food_exp.2.1
    let has_expiry := cat_food_exp.2.2
    let predicted_expiry : Option ℕ :=
      if has_expiry then some (predict_expiry_date today ⟨item_name⟩) else none
    { category := category
      confidence := 7 / 10
      brand := none
      enhanced_data :=
        { product_type := some category
          warranty_info := some
            { has_warranty := some (category = "electronics")
              warranty_period := if category = "electronics" then some "1 year" else none }
          expiry_info := some
            { has_expiry := some has_expiry
              expiry_date := predicted_expiry
              is_expiring_soon := some has_expiry }
          nutritional_info := some
            { is_food := some is_food, allergens := some [], dietary_tags := some [] }
          price_analysis := some
            { unit_price := some price, is_discounted := some false,
              discount_percentage := some 0 } } }

/-- The default record appended by `_parse_classification_response` when the
AI returned fewer classifications than items. -/
def default_pad : EnhancedData :=
  { category := some "food"
    confidence := some (6 / 10)
    brand := none
    product_type := some "food_item"
    warranty_info := some { has_warranty := some false }
    expiry_info := some
      { has_expiry := some true, expiry_date := some date_2025_07_25,
        is_expiring_soon := some false }
    nutritional_info := some { is_food := some true, allergens := some [] }
    price_analysis := some { unit_price := some 0, is_discounted := some false } }

/-- Conversion to the backward-compatible record
(`classification.get("category", "food")`, `get("confidence", 0.6)`,
`get("brand")`, full record preserved under `enhanced_data`). -/
def toClassification (ed : EnhancedData) : Classification :=
  { category := ed.category.getD "food"
    confidence := ed.confidence.getD (6 / 10)
    brand := ed.brand
    enhanced_data := ed }

/-- The `fallback_categories` of `_fallback_classification`. -/
def fallback_categories : List String :=
  ["food", "beverages", "household", "personal_care", "other"]

/-- The `_fallback_classification(expected_count)`: cycle through the five
categories with confidence 0.5 when even the AI response could not be
parsed. -/
def fallback_classification (expected_count : ℕ) : List Classification :=
  (List.range expected_count).map fun i =>
    let category := fallback_categories.getD (i % fallback_categories.length) "other"
    let food_or_bev : Bool := category = "food" || category = "beverages"
    { category := category
      confidence := 1 / 2
      brand := none
      enhanced_data :=
        { category := some category
          confidence := some (1 / 2)
          warranty_info := some { has_warranty := some false }
          expiry_info := some
            { has_expiry := some food_or_bev
              expiry_date := if food_or_bev then some date_2025_07_25 else none }
          nutritional_info := some { is_food := some food_or_bev }
          price_analysis := some { unit_price := some 0, is_discounted := some false } } }

/-- The parsed JSON object of a classification response.  Only
`item_classifications` is consumed by the per-item pipeline
(`business_analysis` feeds the debugging side channel the spec excludes). -/
structure Analysis where
  item_classifications : Option (List EnhancedData) := none
  deriving Repr

/-- Outcome of the classification request at the AI boundary: the retried
call raised (`callFailure`), or a response arrived whose JSON parse result is
`parsed` (`none` covers both `JSONDecodeError` and a non-object payload, which
the source catches identically). -/
inductive ClassifyOutcome where
  | callFailure
  | response (parsed : Option Analysis)

/-- The `_parse_classification_response(response, expected_count)`: pad with
`default_pad` or truncate on count mismatch; on any parse failure fall back to
`_fallback_classification`.  The `while` padding loop followed by `[:n]` is
written as append-replicate-take. -/
def parse_classification_response (parsed : Option Analysis) (expected_count : ℕ) :
    List Classification :=
  match parsed with
  | none => fallback_classification expected_count
  | some a =>
      let ics := a.item_classifications.getD []
      let ics := if ics.length ≠ expected_count then
          (ics ++ List.replicate (expected_count - ics.length) default_pad).take expected_count
        else ics
      ics.map toClassification

/-- The `_classify_items_with_gemini(items)`: AI path with parse repair, falling
back to `_create_fallback_classifications` when the AI call itself fails. -/
def classify_items_with_gemini (today : ℕ) (items : List PItem)
    (outcome : ClassifyOutcome) : List Classification :=
  match outcome with
  | .callFailure => create_fallback_classifications today items
  | .response parsed => parse_classification_response parsed items.length

/-! ### Graph Assembler (`_extract_entities_from_receipt`) -/

/-- Modelled from the spec: the upstream `Receipt` value (`models/receipt.py`
is not among the provided sources; the spec lists its fields as merchant
name, address, phone, tax id, date, total amount, currency, payment method,
raw OCR text, optional pre-parsed item list, plus the owning user).  Only the
fields the assembler reads are included. -/
structure Receipt where
  merchant_name : String
  merchant_address : Option String := none
  merchant_phone : Option String := none
  merchant_tax_id : Option String := none
  total_amount : Option ℚ := none
  payment_method : Option String := none
  card_last_four : Option String := none
  raw_text : String := ""
  items : List PItem := []
  user_id : String := ""
  deriving Repr

/-- The comprehensive `product_attributes` dict built for each (item,
classification) pair, in source key order. -/
def productAttributes (item : PItem) (c : Classification) : Attrs :=
  let base_price := item.price
  let ed := c.enhanced_data
  let w := ed.warranty_info.getD {}
  let x := ed.expiry_info.getD {}
  let n := ed.nutritional_info.getD {}
  let p := ed.price_analysis.getD {}
  [("price", .num base_price),
   ("quantity", .num item.quantity),
   ("total_price", .num (item.total_price.getD (base_price * item.quantity))),
   ("sku", optStr item.sku),
   ("description", optStr item.description),
   ("confidence", .num c.confidence),
   ("brand", optStr c.brand),
   ("product_type", optStr ed.product_type),
   ("has_warranty", .boolV (w.has_warranty.getD false)),
   ("warranty_period", optStr w.warranty_period),
   ("warranty_expiry", optStr w.warranty_expiry),
   ("has_expiry", .boolV (x.has_expiry.getD false)),
   ("expiry_date", optDate x.expiry_date),
   ("days_until_expiry", optNum x.days_until_expiry),
   ("is_expiring_soon", .boolV (x.is_expiring_soon.getD false)),
   ("is_food", .boolV (n.is_food.getD false)),
   ("allergens", .strList (n.allergens.getD [])),
   ("dietary_tags", .strList (n.dietary_tags.getD [])),
   ("unit_price", .num (p.unit_price.getD base_price)),
   ("price_per_unit", .num (p.price_per_unit.getD base_price)),
   ("is_discounted", .boolV (p.is_discounted.getD false)),
   ("original_price", optNum p.original_price)]

/-- Entities appended for one (item, classification) pair, in source order:
the product entity, a brand entity when a brand was detected (lines 272-283),
the category entity, and a second brand entity when a brand was detected
(lines 294-302).  `if brand_name:` is Python truthiness, so an empty brand
string detects nothing.  Fresh uuids are assigned afterwards. -/
def entitiesForItem (item : PItem) (c : Classification) : List GraphEntity :=
  let product : GraphEntity :=
    { id := "", name := item.name, type := "product",
      category := some c.category,
      attributes := productAttributes item c,
      confidence := c.confidence }
  let brand1 : List GraphEntity :=
    match c.brand with
    | some b =>
        if b = "" then [] else
        [{ id := "", name := b, type := "brand",
           attributes := [("domain", .str "product_brand"),
                          ("detected_from", .str item.name)] }]
    | none => []
  let categoryEntity : GraphEntity :=
    { id := "", name := c.category, type := "category",
      attributes := [("domain", .str "product_category")] }
  let brand2 : List GraphEntity :=
    match c.brand with
    | some b =>
        if b = "" then [] else
        [{ id := "", name := b, type := "brand",
           attributes := [("product", .str item.name)] }]
    | none => []
  [product] ++ brand1 ++ [categoryEntity] ++ brand2

/-- Creation-order uuid supply: `uuid4()` is modelled by the entity's
creation index (ids carry no structure; only freshness matters). -/
def mkId (n : ℕ) : String := "uuid-" ++ toString n

/-- Assign fresh ids to a creation-ordered entity list. -/
def assignIdsFrom (n : ℕ) : List GraphEntity → List GraphEntity
  | [] => []
  | e :: r => { e with id := mkId n } :: assignIdsFrom (n + 1) r

/-- The `_extract_entities_from_receipt(receipt)`: merchant, optional location and
payment-method entities, then the per-item product/brand/category entities
for the chosen item set (the AI extraction result when it found more items
than the receipt already carried, or the receipt had none).  When the chosen
set is empty the classifier is not consulted and no item entities arise,
which the empty zip reproduces. -/
def extract_entities_from_receipt (today : ℕ) (receipt : Receipt)
    (extractOutcome : GeminiOutcome) (classifyOutcome : ClassifyOutcome) :
    List GraphEntity :=
  let merchant : GraphEntity :=
    { id := "", name := receipt.merchant_name, type := "merchant",
      attributes := [("address", optStr receipt.merchant_address),
                     ("phone", optStr receipt.merchant_phone),
                     ("tax_id", optStr receipt.merchant_tax_id),
                     ("total_amount", optNum receipt.total_amount)] }
  let locationEntities : List GraphEntity :=
    if optTruthy receipt.merchant_address then
      [{ id := "", name := receipt.merchant_address.getD "", type := "location",
         attributes := [("type", .str "merchant_location")] }]
    else []
  let paymentEntities : List GraphEntity :=
    if optTruthy receipt.payment_method then
      [{ id := "", name := receipt.payment_method.getD "", type := "payment_method",
         attributes := [("card_last_four", optStr receipt.card_last_four)] }]
    else []
  let gemini_items := extract_items_from_text receipt.raw_text receipt.total_amount extractOutcome
  let existing_items := receipt.items
  let items_to_process :=
    if existing_items.length < gemini_items.length ∨ existing_items.isEmpty = true
    then gemini_items else existing_items
  let classified_items := classify_items_with_gemini today items_to_process classifyOutcome
  let itemEntities :=
    (items_to_process.zip classified_items).flatMap fun p => entitiesForItem p.1 p.2
  assignIdsFrom 0 ([merchant] ++ locationEntities ++ paymentEntities ++ itemEntities)

/-! ### Graph Merge Engine (`merge_graphs`)

`merge_graphs` loads each requested graph from storage and merges the loaded
objects.  The loop mutates those in-memory objects (attribute/confidence
enrichment of surviving entities, endpoint remapping and weight strengthening
of surviving relations), so the embedding provides both the merged result
(`merge_graphs`) and the after-state of the input graph objects
(`merge_graphs_post`). -/

/-- Deduplication key `(entity.name.lower(), entity.type)`. -/
def mergeKey (e : GraphEntity) : String × String := (strLower e.name, e.type)

/-- In-place enrichment of the surviving entity by a later duplicate:
`existing.attributes.update(entity.attributes)` and
`existing.confidence = max(existing.confidence, entity.confidence)`. -/
def enrichEntity (ex dup : GraphEntity) : GraphEntity :=
  { ex with attributes := dictUpdate ex.attributes dup.attributes,
            confidence := max ex.confidence dup.confidence }

/-- The `entity_map` loop: insertion-ordered dedup by `mergeKey`; the first
occurrence of a key keeps position and identity and is enriched in place by
each later duplicate (keys in `acc` are pairwise distinct, so the map below
touches exactly one entry). -/
def dedupEntitiesAux (acc : List GraphEntity) : List GraphEntity → List GraphEntity
  | [] => acc
  | e :: rest =>
      if acc.any (fun a => mergeKey a = mergeKey e) then
        dedupEntitiesAux
          (acc.map fun a => if mergeKey a = mergeKey e then enrichEntity a e else a) rest
      else
        dedupEntitiesAux (acc ++ [e]) rest

/-- Deduplicated entity list of a merge, in first-occurrence order. -/
def dedupEntities (es : List GraphEntity) : List GraphEntity := dedupEntitiesAux [] es

/-- Endpoint resolution of the relation loop, exactly as written in the
source: `next((e for e in merged_graph.entities if e.name ==
relation.source_entity_id), None)` — an entity NAME is compared with the
relation's endpoint ID (and likewise for the target). -/
def resolveRel (ents : List GraphEntity) (r : GraphRelation) :
    Option (String × String) :=
  match ents.find? (fun e => e.name = r.source_entity_id),
        ents.find? (fun e => e.name = r.target_entity_id) with
  | some s, some t => some (s.id, t.id)
  | _, _ => none

/-- The `existing.weight = min(existing.weight + 0.1, 1.0)`. -/
def bumpWeight (r : GraphRelation) : GraphRelation :=
  { r with weight := min (r.weight + 1 / 10) 1 }

/-- Key of the `relation_map`: (resolved source id, resolved target id,
relation type). -/
abbrev RelKey := String × String × String

/-- The `relation_map` loop: only relations whose two endpoints resolve
survive; the first occurrence of a key is remapped in place and stored,
later duplicates strengthen the stored relation's weight. -/
def buildRelMap (ents : List GraphEntity) :
    List GraphRelation → List (RelKey × GraphRelation) → List (RelKey × GraphRelation)
  | [], m => m
  | r :: rest, m =>
      match resolveRel ents r with
      | none => buildRelMap ents rest m
      | some (sid, tid) =>
          let k : RelKey := (sid, tid, r.relation_type)
          if m.any (fun p => p.1 = k) then
            buildRelMap ents rest (m.map fun p => if p.1 = k then (p.1, bumpWeight p.2) else p)
          else
            buildRelMap ents rest
              (m ++ [(k, { r with source_entity_id := sid, target_entity_id := tid })])

/-- The `merge_graphs(graph_ids, user_id)`, pure core over the loaded graphs:
`none` models the `ValueError` raised when no requested graph resolves;
otherwise a fresh graph receives the concatenated receipt ids, the
deduplicated entities and the surviving relations through
`add_entity`/`add_relation` in map-insertion order.  (The timestamp suffix
of the generated name is not modelled.) -/
def merge_graphs (graphs : List KnowledgeGraph) (user_id : String) :
    Option KnowledgeGraph :=
  if graphs.isEmpty then none
  else
    let g0 : KnowledgeGraph :=
      { name := "merged_graph_" ++ user_id, user_id := some user_id,
        receipt_ids := graphs.flatMap KnowledgeGraph.receipt_ids }
    let ents := dedupEntities (graphs.flatMap KnowledgeGraph.entities)
    let rels := (buildRelMap ents (graphs.flatMap KnowledgeGraph.relations) []).map Prod.snd
    some (rels.foldl KnowledgeGraph.add_relation (ents.foldl KnowledgeGraph.add_entity g0))

/-- Final merged version of the first occurrence of `e`'s key. -/
def finalEntityFor (all : List GraphEntity) (e : GraphEntity) : GraphEntity :=
  ((dedupEntities all).find? fun a => mergeKey a = mergeKey e).getD e

/-- After-state of one input entity under Python aliasing: the first
occurrence of a key is the object stored in `entity_map`, enriched in place
by every later duplicate, so it ends as the merged version; later duplicates
are only read.  `pre` is the list of entities scanned before it, `all` the
whole scan. -/
def postEntity (all pre : List GraphEntity) (e : GraphEntity) : GraphEntity :=
  if pre.any (fun a => mergeKey a = mergeKey e) then e else finalEntityFor all e

/-- Map over a list threading the already-scanned prefix. -/
def mapWithPre {α : Type} (f : List α → α → α) (pre : List α) : List α → List α
  | [] => []
  | e :: rest => f pre e :: mapWithPre f (pre ++ [e]) rest

/-- Resolved `relation_map` key of a relation, when both endpoints resolve. -/
def relResolvedKey (ents : List GraphEntity) (r : GraphRelation) : Option RelKey :=
  (resolveRel ents r).map fun st => (st.1, st.2, r.relation_type)

/-- After-state of one input relation under Python aliasing: unresolved
relations are untouched; the first relation resolving to a key is the stored
object — remapped in place and strengthened once per later duplicate, so it
ends as the map's final entry; later duplicates are only read. -/
def postRelation (ents : List GraphEntity) (allRels : List GraphRelation)
    (pre : List GraphRelation) (r : GraphRelation) : GraphRelation :=
  match relResolvedKey ents r with
  | none => r
  | some k =>
      if pre.any (fun r2 => relResolvedKey ents r2 = some k) then r
      else (((buildRelMap ents allRels []).find? fun p => p.1 = k).map Prod.snd).getD r

/-- After-state of the graphs merged, per graph, threading the global scan
prefixes. -/
def postGraphs (allEnts ents : List GraphEntity) (allRels : List GraphRelation) :
    List GraphEntity → List GraphRelation → List KnowledgeGraph → List KnowledgeGraph
  | _, _, [] => []
  | preE, preR, g :: gs =>
      { g with entities := mapWithPre (postEntity allEnts) preE g.entities,
               relations := mapWithPre (postRelation ents allRels) preR g.relations }
        :: postGraphs allEnts ents allRels (preE ++ g.entities) (preR ++ g.relations) gs

/-- After-state of the in-memory input graph objects of a merge (the
persisted graphs are reloaded copies and are never written back; this is the
state of the loaded objects once `merge_graphs` returns). -/
def merge_graphs_post (graphs : List KnowledgeGraph) : List KnowledgeGraph :=
  let allEnts := graphs.flatMap KnowledgeGraph.entities
  let allRels := graphs.flatMap KnowledgeGraph.relations
  postGraphs allEnts (dedupEntities allEnts) allRels [] [] graphs

/-! ## Theorems -/

/-! ### C6 — graph counters -/

/-- Helper: one `add_entity` step preserves the counter invariant. -/
theorem countersOk_add_entity (g : KnowledgeGraph) (e : GraphEntity)
    (h : countersOk g) : countersOk (g.add_entity e) := by
  obtain ⟨h1, h2⟩ := h
  exact ⟨rfl, h2⟩

/-- Helper: one `add_relation` step preserves the counter invariant. -/
theorem countersOk_add_relation (g : KnowledgeGraph) (r : GraphRelation)
    (h : countersOk g) : countersOk (g.add_relation r) := by
  obtain ⟨h1, h2⟩ := h
  exact ⟨h1, rfl⟩

/-- Claim C6: for every knowledge graph, after any sequence of `add_entity`
and `add_relation` operations, `total_entities` equals the length of the
entity list and `total_relations` the length of the relation list. -/
theorem C6_graph_counters_invariant (g : KnowledgeGraph) (ops : List GraphOp)
    (h : countersOk g) : countersOk (applyOps g ops) := by
  induction ops generalizing g with
  | nil => exact h
  | cons op rest ih =>
      cases op with
      | addEntity e => exact ih _ (countersOk_add_entity g e h)
      | addRelation r => exact ih _ (countersOk_add_relation g r h)

/-- Witness for C6 at a concrete graph and operation sequence. -/
theorem C6_graph_counters_invariant_witness :
    countersOk ({} : KnowledgeGraph) ∧
    countersOk (applyOps {}
      [.addEntity { id := "u1", name := "a", type := "product" },
       .addRelation { id := "r1", source_entity_id := "u1",
                      target_entity_id := "u1", relation_type := "similar_to" },
       .addEntity { id := "u2", name := "b", type := "merchant" }]) :=
  ⟨by decide, C6_graph_counters_invariant {} _ (by decide)⟩

/-! ### C7 — fallback extractor scenario -/

/-- Claim C7: on `"MILK 1L  Rs. 55.00\nBREAD\n42.00\nTOTAL  97.00"` with a
97.00 total hint the deterministic fallback returns exactly the MILK and
BREAD items, the 97.00 line being excluded. -/
theorem C7_fallback_scenario_eval :
    fallback_regex_extraction "MILK 1L  Rs. 55.00\nBREAD\n42.00\nTOTAL  97.00" (some 97) =
      [{ name := "MILK 1L", price := 55, quantity := 1, total_price := some 55 },
       { name := "BREAD", price := 42, quantity := 1, total_price := some 42 }] :=
  of_decide_eq_true (by with_unfolding_all rfl)

/-! ### C2 — extraction response-parse failure -/

/-- Counterexample to C2: an unparseable AI response makes
`extract_items_from_text` return the empty list, not the (nonempty) result of
the regex fallback on the same raw text. -/
theorem C2_parse_failure_counterexample :
    clean_gemini_response "not json" = "not json"
    ∧ extract_items_from_text "SOAP BAR  Rs. 20.00" none (.success "not json" none) = []
    ∧ fallback_regex_extraction "SOAP BAR  Rs. 20.00" none =
        [{ name := "SOAP BAR", price := 20, quantity := 1, total_price := some 20 }]
    ∧ extract_items_from_text "SOAP BAR  Rs. 20.00" none (.success "not json" none)
        ≠ fallback_regex_extraction "SOAP BAR  Rs. 20.00" none :=
  of_decide_eq_true (by with_unfolding_all rfl)

/-- Claim C2 as amended: a response-parse failure is never retried and never
propagated, but it does not run the regex fallback either —
`extract_items_from_text` returns the empty list; the deterministic fallback
runs exactly when the AI call itself fails. -/
theorem C2_parse_failure_returns_empty :
    (∀ raw_text total_amount response,
        extract_items_from_text raw_text total_amount (.success response none) = [])
    ∧ ∀ raw_text total_amount,
        extract_items_from_text raw_text total_amount .failure =
          fallback_regex_extraction raw_text total_amount := by
  refine ⟨fun raw_text total_amount response => ?_, fun _ _ => rfl⟩
  show (if clean_gemini_response response = "" then [] else ([] : List PItem)) = []
  exact ite_self []

/-! ### C9 — Whole Milk fallback classification -/

/-- Claim C9: the deterministic fallback classifies `{name: "Whole Milk"}` as
category `"grocery"` with `has_expiry = true` and a predicted expiry date of
the current date plus 3 days (first matching shelf-life keyword: milk). -/
theorem C9_whole_milk_fallback (today : ℕ) :
    (create_fallback_classifications today [{ name := "Whole Milk" }]).map
        (fun c => (c.category,
                   (c.enhanced_data.expiry_info.getD {}).has_expiry,
                   (c.enhanced_data.expiry_info.getD {}).expiry_date))
      = [("grocery", some true, some (today + 3))] := rfl

/-! ### C10 — is_expiring_soon equals has_expiry in the fallback classifier -/

/-- Claim C10: in the deterministic fallback classifier every produced
record's `is_expiring_soon` flag equals its `has_expiry` flag, no matter how
long the predicted shelf life is. -/
theorem C10_expiring_soon_equals_has_expiry (today : ℕ) (items : List PItem)
    (c : Classification) (hc : c ∈ create_fallback_classifications today items) :
    (c.enhanced_data.expiry_info.getD {}).is_expiring_soon
      = (c.enhanced_data.expiry_info.getD {}).has_expiry := by
  rcases List.mem_map.1 hc with ⟨item, _, rfl⟩
  rfl

/-- Witness for C10 at a rice item (365-day shelf life, still flagged). -/
theorem C10_expiring_soon_equals_has_expiry_witness :
    ((((create_fallback_classifications 0 [{ name := "Rice Bag" }]).getD 0
          (toClassification default_pad)).enhanced_data.expiry_info.getD
        {}).is_expiring_soon
      = ((((create_fallback_classifications 0 [{ name := "Rice Bag" }]).getD 0
          (toClassification default_pad)).enhanced_data.expiry_info.getD
        {}).has_expiry)) :=
  C10_expiring_soon_equals_has_expiry 0 [{ name := "Rice Bag" }] _
    (of_decide_eq_true (by with_unfolding_all rfl))

/-! ### C1 — merge counts on disjoint inputs -/

/-- First failing-input graph for C1: two entities and one relation whose
endpoints are the entities' ids (fresh uuids, distinct from the names), as
every graph the assembler builds has. -/
def C1graphA : KnowledgeGraph :=
  { id := "g1"
    name := "g1"
    entities := [{ id := "u1", name := "a", type := "product" },
                 { id := "u2", name := "b", type := "merchant" }]
    relations := [{ id := "r1", source_entity_id := "u1", target_entity_id := "u2",
                    relation_type := "purchased_at" }]
    total_entities := 2
    total_relations := 1 }

/-- Second failing-input graph for C1: one entity, disjoint key. -/
def C1graphB : KnowledgeGraph :=
  { id := "g2"
    name := "g2"
    entities := [{ id := "u3", name := "c", type := "category" }]
    total_entities := 1 }

/-- Claim C1, evaluated at the failing input: the inputs' entity keys are
pairwise disjoint and they carry one relation in total, yet the merged graph
has zero relations (the entity count does equal the sum).  The merge loop
resolves relation endpoints by comparing entity names with endpoint ids
(`e.name == relation.source_entity_id`), which drops every relation whose
endpoint uuids differ from entity names. -/
theorem C1_merge_drops_relations_failing_eval :
    ((C1graphA.entities ++ C1graphB.entities).map mergeKey).Nodup
    ∧ C1graphA.total_relations + C1graphB.total_relations = 1
    ∧ (merge_graphs [C1graphA, C1graphB] "user").map
        (fun g => (g.total_entities, g.total_relations)) = some (3, 0) :=
  of_decide_eq_true (by with_unfolding_all rfl)

/-! ### C8 — entities added per (item, classification) pair -/

/-- Failing-input receipt for C8: one structured item. -/
def C8rcpt : Receipt :=
  { merchant_name := "M"
    items := [{ name := "Phone Case", price := 10 }] }

/-- Failing-input AI classification for C8: a brand was detected. -/
def C8analysis : Analysis :=
  { item_classifications :=
      some [{ category := some "electronics", confidence := some (9 / 10),
              brand := some "Acme" }] }

/-- Claim C8, evaluated at the failing input: for one (item, classification)
pair with a detected brand the assembler adds one product entity and one
category entity but TWO brand entities (the brand-creation block appears
twice in the source, lines 272-283 and 294-302). -/
theorem C8_duplicate_brand_entity_eval :
    ((extract_entities_from_receipt 0 C8rcpt .failure (.response (some C8analysis))).filter
        (fun e => e.type == "product")).length = 1
    ∧ ((extract_entities_from_receipt 0 C8rcpt .failure (.response (some C8analysis))).filter
        (fun e => e.type == "category")).length = 1
    ∧ ((extract_entities_from_receipt 0 C8rcpt .failure (.response (some C8analysis))).filter
        (fun e => e.type == "brand")).length = 2 :=
  of_decide_eq_true (by with_unfolding_all rfl)

/-! ### C4 — classification length invariant -/

/-- Claim C4: classification returns exactly one record per input item on
every path: the keyword fallback when the AI call fails, the cycling
fallback when the response cannot be parsed, and the parsed AI response
padded with the default food/0.6 record or truncated on a count mismatch. -/
theorem C4_classification_length_invariant :
    (∀ today items outcome,
        (classify_items_with_gemini today items outcome).length = items.length)
    ∧ (∀ today (items : List PItem) (a : Analysis),
        (a.item_classifications.getD []).length < items.length →
          classify_items_with_gemini today items (.response (some a)) =
            (a.item_classifications.getD []).map toClassification
              ++ List.replicate (items.length - (a.item_classifications.getD []).length)
                  (toClassification default_pad))
    ∧ (toClassification default_pad).category = "food"
    ∧ (toClassification default_pad).confidence = 6 / 10 := by
  refine ⟨fun today items outcome => ?_, fun today items a hlt => ?_, rfl, rfl⟩
  · cases outcome with
    | callFailure => simp [classify_items_with_gemini, create_fallback_classifications]
    | response parsed =>
        cases parsed with
        | none =>
            simp [classify_items_with_gemini, parse_classification_response,
                  fallback_classification]
        | some a =>
            simp only [classify_items_with_gemini, parse_classification_response]
            by_cases h : (a.item_classifications.getD []).length = items.length
            · simp [h]
            · rw [if_pos h]
              simp only [List.length_map, List.length_take, List.length_append,
                         List.length_replicate]
              omega
  · simp only [classify_items_with_gemini, parse_classification_response]
    rw [if_pos (Nat.ne_of_lt hlt),
        List.take_of_length_le (by simp only [List.length_append, List.length_replicate]; omega),
        List.map_append, List.map_replicate]

/-- Witness for C4: a one-item batch against an AI response carrying an empty
classification list is padded to length one with the default record. -/
theorem C4_classification_length_invariant_witness :
    ((({ item_classifications := some [] } : Analysis).item_classifications.getD []).length
        < ([{ name := "A" }] : List PItem).length)
    ∧ classify_items_with_gemini 0 [{ name := "A" }]
        (.response (some { item_classifications := some [] })) =
      (({ item_classifications := some [] } : Analysis).item_classifications.getD
          []).map toClassification
        ++ List.replicate
            (([{ name := "A" }] : List PItem).length
              - (({ item_classifications := some [] } :
                    Analysis).item_classifications.getD []).length)
            (toClassification default_pad) :=
  ⟨by decide, C4_classification_length_invariant.2.1 0 [{ name := "A" }]
      { item_classifications := some [] } (by decide)⟩

/-! ### C5 — confidence bounds -/

/-- Failing-input receipt for C5: one structured item. -/
def C5rcpt : Receipt :=
  { merchant_name := "M"
    items := [{ name := "Thing", price := 5 }] }

/-- Failing-input AI classification for C5: the response supplies a
confidence of 2, which nothing in the pipeline clamps. -/
def C5analysis : Analysis :=
  { item_classifications := some [{ confidence := some 2 }] }

/-- Counterexample to C5: on the AI path an out-of-range response confidence
flows unclamped into the produced product entity, violating the [0,1]
bound. -/
theorem C5_confidence_bound_counterexample :
    ((extract_entities_from_receipt 0 C5rcpt .failure (.response (some C5analysis))).map
        (fun e => (e.type, e.confidence)))
      = [("merchant", 1), ("product", 2), ("category", 1)]
    ∧ ¬ ((2 : ℚ) ≤ 1) :=
  of_decide_eq_true (by with_unfolding_all rfl)

/-- Bound hypothesis on a classification outcome: every per-item confidence
the AI response explicitly supplies lies in [0,1] (fallback outcomes carry no
AI confidences). -/
def confidenceBoundedResponse : ClassifyOutcome → Prop
  | .response (some a) =>
      ∀ ed ∈ a.item_classifications.getD [], ∀ q, ed.confidence = some q → 0 ≤ q ∧ q ≤ 1
  | _ => True

/-- Helper: the keyword fallback always emits confidence 0.7. -/
theorem mem_create_fallback_confidence (today : ℕ) (items : List PItem)
    (c : Classification) (hc : c ∈ create_fallback_classifications today items) :
    c.confidence = 7 / 10 := by
  rcases List.mem_map.1 hc with ⟨item, _, rfl⟩
  rfl

/-- Helper: the cycling fallback always emits confidence 0.5. -/
theorem mem_fallback_classification_confidence (n : ℕ) (c : Classification)
    (hc : c ∈ fallback_classification n) : c.confidence = 1 / 2 := by
  rcases List.mem_map.1 hc with ⟨i, _, rfl⟩
  rfl

/-- Helper: under a bounded response, every classification record the
pipeline returns has confidence in [0,1]. -/
theorem classify_confidence_bounded (today : ℕ) (items : List PItem)
    (outcome : ClassifyOutcome) (h : confidenceBoundedResponse outcome)
    (c : Classification) (hc : c ∈ classify_items_with_gemini today items outcome) :
    0 ≤ c.confidence ∧ c.confidence ≤ 1 := by
  cases outcome with
  | callFailure =>
      rw [mem_create_fallback_confidence today items c hc]
      norm_num
  | response parsed =>
      cases parsed with
      | none =>
          rw [mem_fallback_classification_confidence items.length c hc]
          norm_num
      | some a =>
          simp only [classify_items_with_gemini, parse_classification_response] at hc
          rcases List.mem_map.1 hc with ⟨ed, hed, rfl⟩
          have hed2 : ed ∈ a.item_classifications.getD [] ∨ ed = default_pad := by
            by_cases hn : (a.item_classifications.getD []).length = items.length
            · rw [if_neg (by simpa using hn)] at hed
              exact Or.inl hed
            · rw [if_pos hn] at hed
              rcases List.mem_append.1 (List.take_subset _ _ hed) with h1 | h2
              · exact Or.inl h1
              · exact Or.inr (List.eq_of_mem_replicate h2)
          have hconf : (toClassification ed).confidence = ed.confidence.getD (6 / 10) := rfl
          rw [hconf]
          cases hop : ed.confidence with
          | none => norm_num
          | some q =>
              rcases hed2 with hmem | hpad
              · simpa using h ed hmem q hop
              · subst hpad
                simp only [default_pad] at hop
                injection hop with hq
                subst hq
                norm_num

/-- Helper: assigning fresh ids preserves confidence values. -/
theorem assignIdsFrom_confidence (l : List GraphEntity) (n : ℕ) (e : GraphEntity)
    (he : e ∈ assignIdsFrom n l) : ∃ e0 ∈ l, e.confidence = e0.confidence := by
  induction l generalizing n with
  | nil => cases he
  | cons a t ih =>
      rcases List.mem_cons.1 he with rfl | hmem
      · exact ⟨a, List.mem_cons_self a t, rfl⟩
      · rcases ih (n + 1) hmem with ⟨e0, he0, hc⟩
        exact ⟨e0, List.mem_cons_of_mem a he0, hc⟩

/-- Helper: the entities added for one (item, classification) pair carry the
classification's confidence (the product) or the default 1.0. -/
theorem entitiesForItem_confidence (item : PItem) (c : Classification)
    (e : GraphEntity) (he : e ∈ entitiesForItem item c) :
    e.confidence = c.confidence ∨ e.confidence = 1 := by
  unfold entitiesForItem at he
  cases hb : c.brand with
  | none =>
      simp only [hb, List.append_nil, List.nil_append, List.mem_append,
                 List.mem_singleton, List.not_mem_nil, or_false, false_or] at he
      rcases he with rfl | rfl
      · exact Or.inl rfl
      · exact Or.inr rfl
  | some b =>
      simp only [hb] at he
      by_cases hbe : b = ""
      · simp only [if_pos hbe, List.append_nil, List.nil_append, List.mem_append,
                   List.mem_singleton, List.not_mem_nil, or_false, false_or] at he
        rcases he with rfl | rfl
        · exact Or.inl rfl
        · exact Or.inr rfl
      · simp only [if_neg hbe, List.mem_append, List.mem_singleton,
                   List.not_mem_nil, or_false, false_or] at he
        rcases he with ((rfl | rfl) | rfl) | rfl
        · exact Or.inl rfl
        · exact Or.inr rfl
        · exact Or.inr rfl
        · exact Or.inr rfl

/-- Claim C5 as amended: every produced entity has confidence in [0,1]
provided every confidence the AI classification response supplies is itself
in [0,1]; the fallback paths and the non-classified entity kinds satisfy the
bound unconditionally, but an out-of-range AI confidence is not clamped. -/
theorem C5_confidence_bounded_of_bounded_response (today : ℕ) (receipt : Receipt)
    (extOutcome : GeminiOutcome) (clsOutcome : ClassifyOutcome)
    (h : confidenceBoundedResponse clsOutcome) (e : GraphEntity)
    (he : e ∈ extract_entities_from_receipt today receipt extOutcome clsOutcome) :
    0 ≤ e.confidence ∧ e.confidence ≤ 1 := by
  simp only [extract_entities_from_receipt] at he
  rcases assignIdsFrom_confidence _ _ _ he with ⟨e0, he0, hconf⟩
  rw [hconf]
  rcases List.mem_append.1 he0 with hbase | hitems
  · have h1 : e0.confidence = 1 := by
      rcases List.mem_append.1 hbase with hml | hpay
      · rcases List.mem_append.1 hml with hm | hloc
        · rcases List.mem_singleton.1 hm with rfl; rfl
        · split at hloc
          · rcases List.mem_singleton.1 hloc with rfl; rfl
          · cases hloc
      · split at hpay
        · rcases List.mem_singleton.1 hpay with rfl; rfl
        · cases hpay
    rw [h1]; exact ⟨by norm_num, by norm_num⟩
  · rcases List.mem_flatMap.1 hitems with ⟨p, hp, hel⟩
    obtain ⟨p1, p2⟩ := p
    rcases entitiesForItem_confidence p1 p2 e0 hel with hc | hc
    · rw [hc]
      exact classify_confidence_bounded today _ clsOutcome h p2 (List.of_mem_zip hp).2
    · rw [hc]; exact ⟨by norm_num, by norm_num⟩

/-- Witness receipt for C5: a bare merchant, no items. -/
def C5wrcpt : Receipt := { merchant_name := "Shop" }

/-- Witness entity for C5: the merchant entity the assembler produces for
`C5wrcpt`. -/
def C5wentity : GraphEntity :=
  { id := "uuid-0", name := "Shop", type := "merchant",
    attributes := [("address", .noneV), ("phone", .noneV), ("tax_id", .noneV),
                   ("total_amount", .noneV)] }

/-- Witness for C5 at a concrete receipt and fallback outcomes. -/
theorem C5_confidence_bounded_witness :
    0 ≤ C5wentity.confidence ∧ C5wentity.confidence ≤ 1 :=
  C5_confidence_bounded_of_bounded_response 0 C5wrcpt .failure .callFailure trivial
    C5wentity (of_decide_eq_true (by with_unfolding_all rfl))

/-! ### C3 — merge does not mutate its inputs -/

/-- First counterexample graph for C3: "Big Mart" with a phone attribute. -/
def C3graphA : KnowledgeGraph :=
  { id := "h1"
    entities := [{ id := "u1", name := "Big Mart", type := "merchant",
                   attributes := [("phone", .str "1")], confidence := 9 / 10 }]
    total_entities := 1 }

/-- Second counterexample graph for C3: the case-different duplicate
"big mart" with a city attribute. -/
def C3graphB : KnowledgeGraph :=
  { id := "h2"
    entities := [{ id := "u2", name := "big mart", type := "merchant",
                   attributes := [("city", .str "NY")], confidence := 1 }]
    total_entities := 1 }

/-- Counterexample to C3: merging two graphs holding the same entity key
mutates the first input graph in place — its entity ends up with the union of
both attribute dicts and the maximum confidence. -/
theorem C3_merge_mutates_inputs_counterexample :
    merge_graphs_post [C3graphA, C3graphB] ≠ [C3graphA, C3graphB]
    ∧ (merge_graphs_post [C3graphA, C3graphB]).map
        (fun g => g.entities.map (fun e => (e.attributes, e.confidence)))
      = [[([("phone", .str "1"), ("city", .str "NY")], 1)],
         [([("city", .str "NY")], 1)]] :=
  of_decide_eq_true (by with_unfolding_all rfl)

/-- Helper: with pairwise-distinct keys the dedup loop copies its input. -/
theorem dedupEntitiesAux_of_nodup (rest : List GraphEntity) :
    ∀ acc : List GraphEntity, (((acc ++ rest).map mergeKey).Nodup) →
      dedupEntitiesAux acc rest = acc ++ rest := by
  induction rest with
  | nil => intro acc h; simp [dedupEntitiesAux]
  | cons e t ih =>
      intro acc h
      have h2 := h
      rw [List.map_append] at h2
      rcases List.nodup_append.1 h2 with ⟨ha, hb, hdis⟩
      have hnotin : ¬ ((acc.any fun a => decide (mergeKey a = mergeKey e)) = true) := by
        simp only [List.any_eq_true, decide_eq_true_eq, not_exists, not_and]
        intro a ha2 hk
        exact hdis (hk ▸ List.mem_map_of_mem mergeKey ha2)
          (by simp only [List.map_cons]; exact List.mem_cons_self _ _)
      simp only [dedupEntitiesAux]
      rw [if_neg hnotin,
          ih (acc ++ [e]) (by rw [List.append_assoc, List.singleton_append]; exact h),
          List.append_assoc, List.singleton_append]

/-- Helper: dedup over globally distinct keys is the identity. -/
theorem dedupEntities_of_nodup (es : List GraphEntity)
    (h : (es.map mergeKey).Nodup) : dedupEntities es = es :=
  dedupEntitiesAux_of_nodup es [] (by simpa using h)

/-- Helper: with distinct keys, looking a member up by its own key finds it. -/
theorem find?_mergeKey_self (l : List GraphEntity) (e : GraphEntity)
    (he : e ∈ l) (h : (l.map mergeKey).Nodup) :
    l.find? (fun a => mergeKey a = mergeKey e) = some e := by
  induction l with
  | nil => cases he
  | cons a t ih =>
      simp only [List.map_cons, List.nodup_cons] at h
      obtain ⟨hna, ht⟩ := h
      by_cases hk : mergeKey a = mergeKey e
      · have hea : e = a := by
          rcases List.mem_cons.1 he with rfl | het
          · rfl
          · exact absurd (hk ▸ List.mem_map_of_mem mergeKey het) hna
        rw [List.find?_cons_of_pos _ (by simpa using hk), hea]
      · have het : e ∈ t := by
          rcases List.mem_cons.1 he with rfl | het
          · exact absurd rfl hk
          · exact het
        rw [List.find?_cons_of_neg _ (by simpa using hk)]
        exact ih het ht

/-- Helper: under globally distinct keys each entity survives as itself. -/
theorem finalEntityFor_of_nodup (all : List GraphEntity) (e : GraphEntity)
    (he : e ∈ all) (h : (all.map mergeKey).Nodup) : finalEntityFor all e = e := by
  unfold finalEntityFor
  rw [dedupEntities_of_nodup all h, find?_mergeKey_self all e he h]
  rfl

/-- Helper: under globally distinct keys no entity is mutated. -/
theorem postEntity_of_nodup (all pre : List GraphEntity) (e : GraphEntity)
    (he : e ∈ all) (h : (all.map mergeKey).Nodup) : postEntity all pre e = e := by
  unfold postEntity
  split
  · rfl
  · exact finalEntityFor_of_nodup all e he h

/-- Helper: an unresolved relation is never mutated. -/
theorem postRelation_of_unresolved (ents : List GraphEntity)
    (allRels : List GraphRelation) (pre : List GraphRelation) (r : GraphRelation)
    (h : resolveRel ents r = none) : postRelation ents allRels pre r = r := by
  unfold postRelation relResolvedKey
  rw [h]
  rfl

/-- Helper: threading prefixes over a pointwise-identity map is the
identity. -/
theorem mapWithPre_id {α : Type} (f : List α → α → α) (l : List α)
    (hf : ∀ pre a, a ∈ l → f pre a = a) : ∀ pre, mapWithPre f pre l = l := by
  induction l with
  | nil => intro pre; rfl
  | cons a t ih =>
      intro pre
      simp only [mapWithPre]
      rw [hf pre a (List.mem_cons_self a t),
          ih (fun p b hb => hf p b (List.mem_cons_of_mem a hb)) (pre ++ [a])]

/-- Helper: the per-graph after-state is the identity when no entity and no
relation is ever mutated. -/
theorem postGraphs_id (allEnts ents : List GraphEntity) (allRels : List GraphRelation)
    (hE : ∀ pre e, e ∈ allEnts → postEntity allEnts pre e = e)
    (hR : ∀ pre r, r ∈ allRels → postRelation ents allRels pre r = r) :
    ∀ gs preE preR,
      (∀ g ∈ gs, (∀ e ∈ g.entities, e ∈ allEnts) ∧ (∀ r ∈ g.relations, r ∈ allRels)) →
      postGraphs allEnts ents allRels preE preR gs = gs := by
  intro gs
  induction gs with
  | nil => intro preE preR hsub; rfl
  | cons g t ih =>
      intro preE preR hsub
      have hg := hsub g (List.mem_cons_self g t)
      simp only [postGraphs]
      rw [mapWithPre_id (postEntity allEnts) g.entities
            (fun pre e heg => hE pre e (hg.1 e heg)) preE,
          mapWithPre_id (postRelation ents allRels) g.relations
            (fun pre r hrg => hR pre r (hg.2 r hrg)) preR,
          ih _ _ (fun g2 hg2 => hsub g2 (List.mem_cons_of_mem g hg2))]

/-- Claim C3 as amended: `merge_graphs` CAN mutate its in-memory input graphs
(when two inputs share an entity `(lowercased name, type)` key the surviving
first occurrence is enriched in place, and a relation whose endpoint ids
match entity names is remapped in place); the inputs are left unchanged
whenever all entity keys are pairwise distinct and no relation endpoint
resolves against a merged entity name. -/
theorem C3_merge_preserves_disjoint_inputs (graphs : List KnowledgeGraph)
    (hkeys : ((graphs.flatMap KnowledgeGraph.entities).map mergeKey).Nodup)
    (hres : ∀ r ∈ graphs.flatMap KnowledgeGraph.relations,
        resolveRel (dedupEntities (graphs.flatMap KnowledgeGraph.entities)) r = none) :
    merge_graphs_post graphs = graphs := by
  show postGraphs (graphs.flatMap KnowledgeGraph.entities)
      (dedupEntities (graphs.flatMap KnowledgeGraph.entities))
      (graphs.flatMap KnowledgeGraph.relations) [] [] graphs = graphs
  apply postGraphs_id
  · intro pre e he
    exact postEntity_of_nodup _ pre e he hkeys
  · intro pre r hr
    exact postRelation_of_unresolved _ _ pre r (hres r hr)
  · intro g hg
    exact ⟨fun e heg => List.mem_flatMap.2 ⟨g, hg, heg⟩,
           fun r hrg => List.mem_flatMap.2 ⟨g, hg, hrg⟩⟩

/-- First witness graph for C3: disjoint key, one relation with uuid
endpoints. -/
def C3wgraphA : KnowledgeGraph :=
  { id := "w1"
    entities := [{ id := "u1", name := "a", type := "product" }]
    relations := [{ id := "r1", source_entity_id := "u1", target_entity_id := "u1",
                    relation_type := "similar_to" }]
    total_entities := 1
    total_relations := 1 }

/-- Second witness graph for C3: disjoint key, no relations. -/
def C3wgraphB : KnowledgeGraph :=
  { id := "w2"
    entities := [{ id := "u2", name := "b", type := "merchant" }]
    total_entities := 1 }

/-- Witness for C3 at two concrete disjoint graphs. -/
theorem C3_merge_preserves_disjoint_inputs_witness :
    merge_graphs_post [C3wgraphA, C3wgraphB] = [C3wgraphA, C3wgraphB] :=
  C3_merge_preserves_disjoint_inputs [C3wgraphA, C3wgraphB]
    (of_decide_eq_true (by with_unfolding_all rfl))
    (of_decide_eq_true (by with_unfolding_all rfl))

end Raseed
